import Mathlib

/-!
Shallow embedding of the PulseTracker metrics/scoring engine and its
stagnant/blocked-task detectors, with theorems checking the spec claims.

Times are unix-epoch milliseconds modelled as integers; fractional
quantities (averages, scores before rounding) are rationals. JavaScript
optional fields are `Option`; a field that can be `null` as well as absent
is `Option (Option _)` (`none` = absent/undefined, `some none` = null).
-/

namespace PulseTracker

/-- Lower-cases ASCII letters, modelling JavaScript `toLowerCase` on the
identifier-like status/comment strings the code handles. -/
def jsToLower (s : String) : String := String.mk (s.data.map Char.toLower)

/-- Models JavaScript `hay.includes(needle)`: substring containment. -/
def strContains (hay needle : String) : Bool :=
  (List.range (hay.data.length + 1)).any fun i => needle.data.isPrefixOf (hay.data.drop i)

/-- JavaScript `Math.round`: round half toward positive infinity. -/
def jsRound (q : ℚ) : ℤ := ⌊q + 1/2⌋

/-- JavaScript `Math.min(100, Math.max(0, n))` clamp used by every composite
score. -/
def clampScore (n : ℤ) : ℤ := min 100 (max 0 n)

/-- A ClickUp task status: the code tolerates a raw string or an object
carrying optional `status` / `name` text fields. -/
inductive StatusVal
  | str (s : String)
  | obj (status : Option String) (name : Option String)
deriving Repr, DecidableEq

/-- One task comment; `comment_text` may be absent. -/
structure TaskComment where
  comment_text : Option String
deriving Repr, DecidableEq

/-- One task assignee; `username` may be absent. -/
structure Assignee where
  username : Option String
deriving Repr, DecidableEq

/-- A ClickUp task as the calculators consume it. Timestamps are the
millisecond values the code obtains via `parseInt`. -/
structure Task where
  id : String
  name : String
  status : Option StatusVal
  assignees : Option (List Assignee)
  comments : Option (List TaskComment)
  date_created : Option ℤ
  date_updated : Option ℤ
  date_closed : Option ℤ
  points : Option ℤ
deriving Repr, DecidableEq

/-- JavaScript `task.status?.status`: present only when the status is an
object with a `status` field. -/
def Task.statusStatus (t : Task) : Option String :=
  match t.status with
  | some (StatusVal.obj s _) => s
  | _ => none

/-- Models `task.status?.status?.toLowerCase() || ""`. -/
def Task.statusTextLower (t : Task) : String :=
  match t.statusStatus with
  | some s => jsToLower s
  | none => ""

/-- The completion vocabulary of `calculateVelocity`. -/
def completionStatuses : List String :=
  ["completed", "done", "closed", "deployed", "finished", "accepted"]

/-- The completed-status test of `calculateVelocity`: a missing
`status.status` is not completed; otherwise the lower-cased text must be in
the completion vocabulary (exact membership, not substring). -/
def isCompletedStatus (t : Task) : Bool :=
  match t.statusStatus with
  | none => false
  | some s => completionStatuses.contains (jsToLower s)

/-- Models `task.date_closed || task.date_updated`. -/
def Task.taskDate (t : Task) : Option ℤ :=
  match t.date_closed with
  | some d => some d
  | none => t.date_updated

/-- The `isWithinTimeframe` value `calculateVelocity` computes (the task's
closing or last-update time is at or after `now` minus `days` days): the
source computes it and logs it but its use in the filter is commented out. -/
def isWithinTimeframe (now : ℤ) (days : ℤ) (t : Task) : Bool :=
  match t.taskDate with
  | none => false
  | some d => decide (now - days * 86400000 ≤ d)

/-- Models `parseInt(task.points) || 1`: absent points give 1, and an explicit 0
is falsy in JavaScript so it also gives 1. -/
def taskPoints (t : Task) : ℤ :=
  match t.points with
  | none => 1
  | some p => if p = 0 then 1 else p

/-- Result shape of `calculateVelocity`. -/
structure VelocityMetrics where
  totalTasks : ℕ
  totalPoints : ℤ
  averagePerDay : ℚ
  averagePerWeek : ℚ
deriving Repr, DecidableEq

/-- Models `calculateVelocity(tasks, days)` from the ClickUp service. The filter
keeps every task whose status is in the completion vocabulary; the
time-window conjunct `&& isWithinTimeframe` is commented out in the source,
so `now` and `days` do not affect which tasks are counted. -/
def calculateVelocity (now : ℤ) (tasks : List Task) (days : ℤ) : VelocityMetrics :=
  let completedTasks := tasks.filter fun task => isCompletedStatus task
  let totalPoints := completedTasks.foldl (fun sum task => sum + taskPoints task) 0
  { totalTasks := completedTasks.length
    totalPoints := totalPoints
    averagePerDay := (totalPoints : ℚ) / (days : ℚ)
    averagePerWeek := (totalPoints : ℚ) / (days : ℚ) * 7 }

/-- JavaScript object-as-counter update `acc[key] = (acc[key] || 0) + 1`,
modelled on an insertion-ordered association list. -/
def bumpCount (acc : List (String × ℕ)) (key : String) : List (String × ℕ) :=
  if acc.any (fun kv => kv.1 = key) then
    acc.map fun kv => if kv.1 = key then (kv.1, kv.2 + 1) else kv
  else acc ++ [(key, 1)]

/-- The blocked test of `calculateBlockerMetrics` (ClickUp service): the
lower-cased `status?.status` contains "blocked" or "waiting". -/
def censusBlockedPred (t : Task) : Bool :=
  strContains t.statusTextLower "blocked" || strContains t.statusTextLower "waiting"

/-- Models `task.assignees?.[0]?.username || "Unassigned"`. -/
def Task.firstAssigneeName (t : Task) : String :=
  match t.assignees with
  | some (a :: _) =>
    match a.username with
    | some u => u
    | none => "Unassigned"
  | _ => "Unassigned"

/-- Result shape of `calculateBlockerMetrics`. -/
structure BlockerMetrics where
  totalBlocked : ℕ
  byStatus : List (String × ℕ)
  byAssignee : List (String × ℕ)
deriving Repr, DecidableEq

/-- Models `calculateBlockerMetrics(tasks)` from the ClickUp service: counts and
breaks down the tasks passing `censusBlockedPred`. -/
def calculateBlockerMetrics (tasks : List Task) : BlockerMetrics :=
  let blockedTasks := tasks.filter censusBlockedPred
  { totalBlocked := blockedTasks.length
    byStatus := blockedTasks.foldl
      (fun acc task =>
        bumpCount acc (match task.statusStatus with | some s => s | none => "No Status")) []
    byAssignee := blockedTasks.foldl
      (fun acc task => bumpCount acc task.firstAssigneeName) [] }

/-- The status half of `getBlockedTasks` (useClickUpData): lower-cased
`status?.status` contains "blocked", "waiting" or "pending". -/
def isBlockedStatus (t : Task) : Bool :=
  strContains t.statusTextLower "blocked" ||
    strContains t.statusTextLower "waiting" ||
      strContains t.statusTextLower "pending"

/-- The per-comment test inside `getBlockedTasks`: the lower-cased
`comment_text` (empty string if absent) contains "blocked", "waiting",
"pending" or "stuck". -/
def commentBlockedText (c : TaskComment) : Bool :=
  let text := match c.comment_text with | some s => jsToLower s | none => ""
  strContains text "blocked" || strContains text "waiting" ||
    strContains text "pending" || strContains text "stuck"

/-- The comment half of `getBlockedTasks`: some comment matches
`commentBlockedText`; absent `comments` gives false. -/
def hasBlockedComments (t : Task) : Bool :=
  match t.comments with
  | none => false
  | some cs => cs.any commentBlockedText

/-- The full blocked predicate of `getBlockedTasks`. -/
def isBlockedTask (t : Task) : Bool := isBlockedStatus t || hasBlockedComments t

/-- Models `getBlockedTasks()` (team scope) from useClickUpData. -/
def getBlockedTasks (tasks : List Task) : List Task := tasks.filter isBlockedTask

/-- One pull-request review; `submitted_at` may be absent. -/
structure Review where
  submitted_at : Option ℤ
deriving Repr, DecidableEq

/-- A GitHub pull request as `calculatePRMetrics` consumes it. `merged_at`
distinguishes absent (`none`) from null (`some none`) from a timestamp,
because the code compares it with `!== null` strict equality. Field
`user_login` models `pr.user?.login`. -/
structure PullRequest where
  created_at : ℤ
  merged_at : Option (Option ℤ)
  closed_at : Option ℤ
  state : String
  user_login : Option String
  reviews : Option (List Review)
deriving Repr, DecidableEq

/-- Models `pr.merged_at !== null`: true for a timestamp and also for an absent
(undefined) field; false only for an explicit null. -/
def mergedAtNotNull (pr : PullRequest) : Bool := decide (pr.merged_at ≠ some none)

/-- Models `pr.merged_at ? ... : null` truthiness: only a real timestamp counts. -/
def mergedAtTimestamp (pr : PullRequest) : Option ℤ :=
  match pr.merged_at with
  | some (some m) => some m
  | _ => none

/-- The per-PR enrichment in `calculatePRMetrics`: `timeToMerge` in days
when `merged_at` is truthy, `timeToFirstReview` in hours from the FIRST
element of the `reviews` array (no sorting) when its `submitted_at` is
truthy. -/
structure PRTimes where
  pr : PullRequest
  timeToMerge : Option ℚ
  timeToFirstReview : Option ℚ
deriving Repr, DecidableEq

/-- Models `timeToMerge` in days for one pull request: set only when `merged_at`
is a truthy timestamp. -/
def mergedTimeDays (pr : PullRequest) : Option ℚ :=
  match mergedAtTimestamp pr with
  | some m => some (((m - pr.created_at : ℤ) : ℚ) / (1000 * 60 * 60 * 24))
  | none => none

/-- Models `timeToFirstReview` in hours for one pull request: taken from the
FIRST element of the `reviews` array (no sorting), when its `submitted_at`
is truthy. -/
def firstReviewTime (pr : PullRequest) : Option ℚ :=
  match pr.reviews with
  | some (r :: _) =>
    match r.submitted_at with
    | some s => some (((s - pr.created_at : ℤ) : ℚ) / (1000 * 60 * 60))
    | none => none
  | _ => none

/-- Builds the `prsWithTimes` record for one pull request. -/
def prWithTimes (pr : PullRequest) : PRTimes :=
  { pr := pr
    timeToMerge := mergedTimeDays pr
    timeToFirstReview := firstReviewTime pr }

/-- Per-author aggregate produced inside `calculatePRMetrics.byAuthor`. -/
structure AuthorPRStats where
  total : ℕ
  openPRs : ℕ
  merged : ℕ
  closed : ℕ
  averageTimeToMerge : ℚ
  averageTimeToFirstReview : ℚ
deriving Repr, DecidableEq

/-- Result shape of `calculatePRMetrics` (`openPRs` models the `open`
field, a reserved word in Lean). -/
structure PRMetrics where
  total : ℕ
  openPRs : ℕ
  merged : ℕ
  closed : ℕ
  averageTimeToMerge : ℚ
  averageTimeToFirstReview : ℚ
  byAuthor : List (String × AuthorPRStats)
deriving Repr, DecidableEq

/-- Models `pr.user?.login || "unknown"`. -/
def prAuthor (p : PRTimes) : String :=
  match p.pr.user_login with
  | some u => u
  | none => "unknown"

/-- Mean of `(pr.timeToMerge || 0)` over the given PRs, 0 when the list is
empty. -/
def avgTimeToMerge (prs : List PRTimes) : ℚ :=
  if prs.length > 0 then
    (prs.foldl (fun sum p => sum + (match p.timeToMerge with | some q => q | none => 0)) 0)
      / (prs.length : ℚ)
  else 0

/-- Mean of `(pr.timeToFirstReview || 0)` over the given PRs, 0 when the
list is empty. -/
def avgTimeToFirstReview (prs : List PRTimes) : ℚ :=
  if prs.length > 0 then
    (prs.foldl
        (fun sum p => sum + (match p.timeToFirstReview with | some q => q | none => 0)) 0)
      / (prs.length : ℚ)
  else 0

/-- The per-author pass of `calculatePRMetrics`: counts from the reduce,
averages from the follow-up forEach over that author's PRs. -/
def authorStats (prsWithT : List PRTimes) (author : String) : AuthorPRStats :=
  let authorPRs := prsWithT.filter fun p => prAuthor p = author
  let mergedPRs := authorPRs.filter fun p => mergedAtNotNull p.pr
  let reviewedPRs := authorPRs.filter fun p => p.timeToFirstReview ≠ none
  { total := authorPRs.length
    openPRs := (authorPRs.filter fun p => p.pr.state = "open").length
    merged := mergedPRs.length
    closed := (authorPRs.filter fun p => p.pr.state = "closed" ∧ p.pr.merged_at = some none).length
    averageTimeToMerge := avgTimeToMerge mergedPRs
    averageTimeToFirstReview := avgTimeToFirstReview reviewedPRs }

/-- Insertion-ordered list of distinct authors, as the reduce's object keys. -/
def authorKeys (prsWithT : List PRTimes) : List String :=
  prsWithT.foldl (fun acc p => if acc.contains (prAuthor p) then acc else acc ++ [prAuthor p]) []

/-- Models `calculatePRMetrics(pullRequests)` from the GitHub service. Empty input
short-circuits to all-zero metrics. Merged means `merged_at !== null`;
closed means `state === "closed" && merged_at === null`; the review-latency
average ranges over PRs whose `timeToFirstReview` is non-null. -/
def calculatePRMetrics : List PullRequest → PRMetrics
  | [] =>
    { total := 0, openPRs := 0, merged := 0, closed := 0
      averageTimeToMerge := 0, averageTimeToFirstReview := 0, byAuthor := [] }
  | pullRequests@(_ :: _) =>
    let prsWithT := pullRequests.map prWithTimes
    let mergedPRs := prsWithT.filter fun p => mergedAtNotNull p.pr
    let openPRs := prsWithT.filter fun p => p.pr.state = "open"
    let closedPRs := prsWithT.filter fun p => p.pr.state = "closed" ∧ p.pr.merged_at = some none
    let reviewedPRs := prsWithT.filter fun p => p.timeToFirstReview ≠ none
    { total := prsWithT.length
      openPRs := openPRs.length
      merged := mergedPRs.length
      closed := closedPRs.length
      averageTimeToMerge := avgTimeToMerge mergedPRs
      averageTimeToFirstReview := avgTimeToFirstReview reviewedPRs
      byAuthor := (authorKeys prsWithT).map fun a => (a, authorStats prsWithT a) }

/-- One GitHub commit record as `calculateCommitMetrics` reads it:
`commit.author?.login` and `commit.commit?.author?.name`. -/
structure CommitRecord where
  author_login : Option String
  commit_author_name : Option String
deriving Repr, DecidableEq

/-- Models `commit.author?.login || commit.commit?.author?.name || "unknown"`. -/
def commitAuthor (c : CommitRecord) : String :=
  match c.author_login with
  | some u => u
  | none =>
    match c.commit_author_name with
    | some n => n
    | none => "unknown"

/-- Result shape of `calculateCommitMetrics`. -/
structure CommitMetrics where
  total : ℕ
  byAuthor : List (String × ℕ)
deriving Repr, DecidableEq

/-- Models `calculateCommitMetrics(commits)` from the GitHub service. -/
def calculateCommitMetrics (commits : List CommitRecord) : CommitMetrics :=
  if commits.isEmpty then { total := 0, byAuthor := [] }
  else
    { total := commits.length
      byAuthor := commits.foldl (fun acc c => bumpCount acc (commitAuthor c)) [] }

/-- The `prMergedScore` sub-score of `calculateTeamHealthScore`: merge rate
when there are PRs, else 1 ("assume healthy if no PRs"). -/
def prMergedScore (prMetrics : PRMetrics) : ℚ :=
  if prMetrics.total > 0 then (prMetrics.merged : ℚ) / (prMetrics.total : ℚ) else 1

/-- The `prReviewScore` sub-score of `calculateTeamHealthScore`: 48 hours
over the actual average first-review latency, capped at 1; 1 when there
are no PRs or no reviews. -/
def prReviewScore (prMetrics : PRMetrics) : ℚ :=
  if prMetrics.total > 0 ∧ prMetrics.averageTimeToFirstReview > 0 then
    min 1 (48 / prMetrics.averageTimeToFirstReview)
  else 1

/-- Models `calculateTeamHealthScore` (dashboard metrics service): weighted sum of
the four normalized sub-scores, scaled to 100, rounded and clamped. -/
def calculateTeamHealthScore (velocity : ℚ) (blockerCount : ℕ) (prMetrics : PRMetrics) : ℤ :=
  let velocityScore := min (velocity / 20) 1
  let blockerScore := max 0 (1 - (blockerCount : ℚ) / 10)
  let healthScore :=
    (velocityScore * 0.3 + blockerScore * 0.3 +
      prMergedScore prMetrics * 0.2 + prReviewScore prMetrics * 0.2) * 100
  clampScore (jsRound healthScore)

/-- Models `calculateProductivityScore` (dashboard metrics service). -/
def calculateProductivityScore (velocity : ℚ) (prMetrics : PRMetrics)
    (commitMetrics : CommitMetrics) : ℤ :=
  let velocityScore := min (velocity / 30) 1
  let prThroughputScore := min ((prMetrics.merged : ℚ) / 10) 1
  let commitScore := min ((commitMetrics.total : ℚ) / 50) 1
  clampScore (jsRound ((velocityScore * 0.5 + prThroughputScore * 0.3 + commitScore * 0.2) * 100))

/-- The review-time sub-score of `calculateQualityScore`: 24-hour target
over actual latency capped at 1, 1 when no reviews. -/
def prReviewTimeScore (prMetrics : PRMetrics) : ℚ :=
  if prMetrics.averageTimeToFirstReview > 0 then
    min 1 (24 / prMetrics.averageTimeToFirstReview)
  else 1

/-- Models `calculateQualityScore` (dashboard metrics service). -/
def calculateQualityScore (prMetrics : PRMetrics) (blockerMetrics : BlockerMetrics) : ℤ :=
  let prMergeRate :=
    if prMetrics.total > 0 then (prMetrics.merged : ℚ) / (prMetrics.total : ℚ) else 1
  let blockerScore := max 0 (1 - (blockerMetrics.totalBlocked : ℚ) / 5)
  clampScore
    (jsRound ((prMergeRate * 0.4 + prReviewTimeScore prMetrics * 0.4 + blockerScore * 0.2) * 100))

/-- The per-member task counts fed to the member score functions. -/
structure MemberTaskCounts where
  total : ℕ
  completed : ℕ
  inProgress : ℕ
  blocked : ℕ
deriving Repr, DecidableEq

/-- Models `calculateMemberProductivityScore` (dashboard metrics service). -/
def calculateMemberProductivityScore (tasks : MemberTaskCounts) (prMetrics : PRMetrics)
    (commitMetrics : CommitMetrics) : ℤ :=
  let taskCompletionScore :=
    if tasks.total > 0 then (tasks.completed : ℚ) / (max 5 tasks.total : ℕ) else 0
  let prThroughputScore := min ((prMetrics.merged : ℚ) / 5) 1
  let commitScore := min ((commitMetrics.total : ℚ) / 20) 1
  clampScore
    (jsRound ((taskCompletionScore * 0.5 + prThroughputScore * 0.3 + commitScore * 0.2) * 100))

/-- Models `calculateMemberHealthScore` (dashboard metrics service). -/
def calculateMemberHealthScore (tasks : MemberTaskCounts) (prMetrics : PRMetrics) : ℤ :=
  let taskBlockedScore :=
    if tasks.completed > 0 then max 0 (1 - (tasks.blocked : ℚ) / (tasks.completed : ℚ)) else 1
  let prMergeRate :=
    if prMetrics.total > 0 then (prMetrics.merged : ℚ) / (prMetrics.total : ℚ) else 1
  clampScore (jsRound ((taskBlockedScore * 0.6 + prMergeRate * 0.4) * 100))

/-- The scores block of `calculateTeamProductivity`: health from velocity
per week + blocker count + PR metrics, productivity and quality from the
same calculator outputs. -/
structure TeamScores where
  health : ℤ
  productivity : ℤ
  quality : ℤ
deriving Repr, DecidableEq

/-- Models `calculateTeamProductivity(...).scores` with its default 30-day window:
runs the calculators over the raw records and composes the three team
scores. -/
def teamScores (now : ℤ) (tasks : List Task) (pullRequests : List PullRequest)
    (commits : List CommitRecord) : TeamScores :=
  let velocityMetrics := calculateVelocity now tasks 30
  let blockerMetrics := calculateBlockerMetrics tasks
  let prMetrics := calculatePRMetrics pullRequests
  let commitMetrics := calculateCommitMetrics commits
  { health := calculateTeamHealthScore velocityMetrics.averagePerWeek
      blockerMetrics.totalBlocked prMetrics
    productivity := calculateProductivityScore velocityMetrics.averagePerWeek
      prMetrics commitMetrics
    quality := calculateQualityScore prMetrics blockerMetrics }

/-- Raw per-member activity numbers fed to `calculateBurnoutScore`
(useBurnoutScore hook): 7-day commit and PR activity, open tasks, open PRs
authored, completion rate percentage, blocked-task count. -/
structure BurnoutInputs where
  openTasks : ℕ
  commits7d : ℕ
  pullRequests7d : ℕ
  ongoingPRs : ℕ
  completionRate : ℚ
  blockedTasks : ℕ
deriving Repr, DecidableEq

/-- The additive burnout score of `calculateBurnoutScore` before the final
cap at 100: factors for open tasks, recent activity, ongoing PRs, low
completion rate, and 5 points per blocked task. -/
def burnoutRawScore (m : BurnoutInputs) : ℕ :=
  let openFactor :=
    if m.openTasks > 15 then 30 else if m.openTasks > 10 then 20
    else if m.openTasks > 5 then 10 else 0
  let totalActivity := m.commits7d + m.pullRequests7d
  let activityFactor :=
    if totalActivity > 20 then 25 else if totalActivity > 15 then 20
    else if totalActivity > 10 then 15 else 0
  let prFactor := if m.ongoingPRs > 5 then 20 else if m.ongoingPRs > 3 then 15 else 0
  let completionFactor :=
    if m.completionRate < 30 then 15 else if m.completionRate < 50 then 10 else 0
  let blockedFactor := if m.blockedTasks > 0 then m.blockedTasks * 5 else 0
  openFactor + activityFactor + prFactor + completionFactor + blockedFactor

/-- Burnout level labels. -/
inductive BurnoutLevel
  | low
  | moderate
  | high
  | critical
deriving Repr, DecidableEq

/-- The level determination of `calculateBurnoutScore`: critical at 70 and
above, high at 50, moderate at 30, else low. -/
def burnoutLevel (score : ℕ) : BurnoutLevel :=
  if score ≥ 70 then BurnoutLevel.critical
  else if score ≥ 50 then BurnoutLevel.high
  else if score ≥ 30 then BurnoutLevel.moderate
  else BurnoutLevel.low

/-- The (score, level) pair `calculateBurnoutScore` returns: the score is
capped at 100, the level comes from the uncapped score. -/
def calculateBurnoutScore (m : BurnoutInputs) : ℕ × BurnoutLevel :=
  (min (burnoutRawScore m) 100, burnoutLevel (burnoutRawScore m))

/-- A blocked task as produced by `getBlockedTasksWithDuration`
(useClickUpData): the task plus how long it has been blocked. -/
structure BlockedTask where
  task : Task
  blockedSince : ℤ
  hoursBlocked : ℤ
  needsFollowUp : Bool
deriving Repr, DecidableEq

/-- Models `getBlockedTasksWithDuration()` from useClickUpData: blocked since
`date_updated` when present else `date_created` (the data model guarantees
a creation timestamp; 0 stands in for the degenerate record with neither),
`hoursBlocked` floored. -/
def getBlockedTasksWithDuration (now : ℤ) (tasks : List Task) : List BlockedTask :=
  (getBlockedTasks tasks).map fun task =>
    let blockedSince :=
      match task.date_updated with
      | some d => d
      | none => match task.date_created with | some d => d | none => 0
    let hoursBlocked := (now - blockedSince) / 3600000
    { task := task
      blockedSince := blockedSince
      hoursBlocked := hoursBlocked
      needsFollowUp := decide (48 ≤ hoursBlocked) }

/-- Suggestion kinds of the blocked-ticket advisor (useBlockedTickets), in
the fixed order the rules are evaluated. -/
inductive SuggestionType
  | urgent
  | assignment
  | communication
  | review
  | reassignment
  | statusUpdate
deriving Repr, DecidableEq

/-- Models `daysSinceUpdate` as computed in useBlockedTickets: floored days since
`date_updated`, 0 when the task has no update timestamp. -/
def daysSinceUpdate (now : ℤ) (t : Task) : ℤ :=
  match t.date_updated with
  | some d => (now - d) / 86400000
  | none => 0

/-- The five contextual suggestion rules of useBlockedTickets plus the
generic fallback: over 48 hours blocked, an explicitly empty assignee list
(`assignees?.length === 0`), status containing "waiting", status containing
"review", more than 3 days without update; the fallback fires only when no
rule matched. -/
def taskSuggestions (now : ℤ) (bt : BlockedTask) : List SuggestionType :=
  let s :=
    (if bt.hoursBlocked > 48 then [SuggestionType.urgent] else []) ++
    (if bt.task.assignees = some [] then [SuggestionType.assignment] else []) ++
    (if strContains bt.task.statusTextLower "waiting" then [SuggestionType.communication] else []) ++
    (if strContains bt.task.statusTextLower "review" then [SuggestionType.review] else []) ++
    (if daysSinceUpdate now bt.task > 3 then [SuggestionType.reassignment] else [])
  if s.isEmpty then [SuggestionType.statusUpdate] else s

/-- Priority tiers of the blocked-ticket list. -/
inductive Priority
  | critical
  | high
  | medium
  | low
deriving Repr, DecidableEq

/-- The `priorityOrder` ranking used by the sort comparator. -/
def priorityOrder : Priority → ℕ
  | Priority.critical => 3
  | Priority.high => 2
  | Priority.medium => 1
  | Priority.low => 0

/-- The tier derivation in useBlockedTickets: critical above 48 hours
blocked, high above 24, else medium. -/
def priorityLevelOf (hoursBlocked : ℤ) : Priority :=
  if hoursBlocked > 48 then Priority.critical
  else if hoursBlocked > 24 then Priority.high
  else Priority.medium

/-- One enriched blocked ticket as useBlockedTickets maps it. -/
structure BlockedTicket where
  bt : BlockedTask
  assigneeName : String
  suggestions : List SuggestionType
  daysSince : ℤ
  priorityLevel : Priority
deriving Repr, DecidableEq

/-- The sort comparator of useBlockedTickets as a before-or-equal
relation: higher `priorityOrder` first, ties by larger `hoursBlocked`
first. -/
def ticketRel (a b : BlockedTicket) : Prop :=
  priorityOrder b.priorityLevel < priorityOrder a.priorityLevel ∨
    (priorityOrder a.priorityLevel = priorityOrder b.priorityLevel ∧
      b.bt.hoursBlocked ≤ a.bt.hoursBlocked)

instance : DecidableRel ticketRel := fun a b => by
  unfold ticketRel
  exact inferInstance

instance : IsTotal BlockedTicket ticketRel where
  total a b := by
    unfold ticketRel
    omega

instance : IsTrans BlockedTicket ticketRel where
  trans a b c hab hbc := by
    unfold ticketRel at hab hbc ⊢
    omega

/-- The map step of `blockedTicketsWithSuggestions` for one blocked task. -/
def mkTicket (now : ℤ) (bt : BlockedTask) : BlockedTicket :=
  { bt := bt
    assigneeName := bt.task.firstAssigneeName
    suggestions := taskSuggestions now bt
    daysSince := daysSinceUpdate now bt.task
    priorityLevel := priorityLevelOf bt.hoursBlocked }

/-- Models `blockedTicketsWithSuggestions` from useBlockedTickets: enrich every
blocked task with suggestions and a tier, then sort by the comparator
(tier descending, hours blocked descending; a stable sort models the
ECMAScript stable `Array.prototype.sort`). -/
def blockedTicketsWithSuggestions (now : ℤ) (tasks : List Task) : List BlockedTicket :=
  List.insertionSort ticketRel ((getBlockedTasksWithDuration now tasks).map (mkTicket now))

/-- Threshold unit of the stagnant-task detector. -/
inductive ThresholdUnit
  | seconds
  | hours
deriving Repr, DecidableEq

/-- Detector configuration: threshold value and unit. -/
structure DetectorCfg where
  thresholdValue : ℤ
  unit : ThresholdUnit
deriving Repr, DecidableEq

/-- The unit conversion in `detectStagnantTasks`. -/
def thresholdMs (cfg : DetectorCfg) : ℤ :=
  match cfg.unit with
  | ThresholdUnit.seconds => cfg.thresholdValue * 1000
  | ThresholdUnit.hours => cfg.thresholdValue * 60 * 60 * 1000

/-- JavaScript truthiness of an optional string: an empty string is falsy. -/
def truthyStr : Option String → Option String
  | some s => if s = "" then none else some s
  | none => none

/-- The status-text extraction of `detectStagnantTasks`: a raw string
status is lower-cased; otherwise a truthy `status.status` wins, then a
truthy `status.name`, else the empty string. -/
def detectorStatusText (t : Task) : String :=
  match t.status with
  | some (StatusVal.str s) => jsToLower s
  | some (StatusVal.obj s n) =>
    match truthyStr s with
    | some s' => jsToLower s'
    | none => match truthyStr n with | some n' => jsToLower n' | none => ""
  | none => ""

/-- The in-progress vocabulary test of `detectStagnantTasks`. -/
def isInProgress (t : Task) : Bool :=
  let statusText := detectorStatusText t
  strContains statusText "progress" || strContains statusText "doing" ||
    strContains statusText "active" || strContains statusText "started"

/-- Models `detectStagnantTasks` (useStagnantTaskDetector): in-progress tasks whose
time since `date_updated` strictly exceeds the threshold; a task without an
update timestamp never compares over the threshold (NaN comparison). -/
def detectStagnantTasks (cfg : DetectorCfg) (now : ℤ) (tasks : List Task) : List Task :=
  tasks.filter fun task =>
    isInProgress task &&
      (match task.date_updated with
       | some d => decide (now - d > thresholdMs cfg)
       | none => false)

/-- One detector poll: the wall-clock instant and the freshly fetched task
list. -/
structure Poll where
  now : ℤ
  tasks : List Task
deriving Repr, DecidableEq

/-- One run of `checkForStagnantTasks`: from the previously stored stagnant
list, compute the current stagnant set, alert exactly the tasks whose id
was not previously stored, store the current set. Returns (new stored
state, alerted tasks). -/
def detectorStep (cfg : DetectorCfg) (prev : List Task) (p : Poll) : List Task × List Task :=
  let currentStagnant := detectStagnantTasks cfg p.now p.tasks
  let previousStagnantIds := prev.map Task.id
  let newlyStagnant := currentStagnant.filter fun task => !(previousStagnantIds.contains task.id)
  (currentStagnant, newlyStagnant)

/-- Iterated detector polls: the list of alert batches, one per poll. -/
def runDetector (cfg : DetectorCfg) (prev : List Task) : List Poll → List (List Task)
  | [] => []
  | p :: ps => (detectorStep cfg prev p).2 :: runDetector cfg (detectorStep cfg prev p).1 ps

/-- The ids in the stagnant set computed at one poll. -/
def stagnantIds (cfg : DetectorCfg) (p : Poll) : List String :=
  (detectStagnantTasks cfg p.now p.tasks).map Task.id

/-- The stored stagnant-task state just before poll `i` of a run starting
from state `s0`: the initial state for `i = 0`, else the stagnant set of
the previous poll (the step stores exactly the current stagnant set). -/
def stateBefore (cfg : DetectorCfg) (s0 : List Task) (polls : List Poll) (i : ℕ) : List String :=
  match i with
  | 0 => s0.map Task.id
  | j + 1 =>
    match polls.get? j with
    | some p => stagnantIds cfg p
    | none => []

lemma clampScore_nonneg (n : ℤ) : 0 ≤ clampScore n := by
  unfold clampScore
  omega

lemma clampScore_le_100 (n : ℤ) : clampScore n ≤ 100 := by
  unfold clampScore
  omega

/-- C5: every composite score of the Score Composer — team health, team
productivity, team quality, member productivity, member health — lies in
[0, 100] for every input, because each ends in the round-then-clamp. -/
theorem composite_scores_in_range (v : ℚ) (bc : ℕ) (pm : PRMetrics) (cm : CommitMetrics)
    (bm : BlockerMetrics) (mt : MemberTaskCounts) :
    (0 ≤ calculateTeamHealthScore v bc pm ∧ calculateTeamHealthScore v bc pm ≤ 100) ∧
    (0 ≤ calculateProductivityScore v pm cm ∧ calculateProductivityScore v pm cm ≤ 100) ∧
    (0 ≤ calculateQualityScore pm bm ∧ calculateQualityScore pm bm ≤ 100) ∧
    (0 ≤ calculateMemberProductivityScore mt pm cm ∧
      calculateMemberProductivityScore mt pm cm ≤ 100) ∧
    (0 ≤ calculateMemberHealthScore mt pm ∧ calculateMemberHealthScore mt pm ≤ 100) := by
  refine ⟨⟨?_, ?_⟩, ⟨?_, ?_⟩, ⟨?_, ?_⟩, ⟨?_, ?_⟩, ⟨?_, ?_⟩⟩ <;>
    first
      | exact clampScore_nonneg _
      | exact clampScore_le_100 _

/-- C9: the burnout level buckets are exact — below 30 low, 30 to 49
moderate, 50 to 69 high, 70 and above critical — the level returned with
the capped score agrees with the buckets applied to that score, and the six
boundary examples evaluate as the spec states. -/
theorem burnout_level_buckets :
    (∀ s : ℕ, (burnoutLevel s = BurnoutLevel.low ↔ s < 30) ∧
      (burnoutLevel s = BurnoutLevel.moderate ↔ 30 ≤ s ∧ s < 50) ∧
      (burnoutLevel s = BurnoutLevel.high ↔ 50 ≤ s ∧ s < 70) ∧
      (burnoutLevel s = BurnoutLevel.critical ↔ 70 ≤ s)) ∧
    (∀ m : BurnoutInputs,
      (calculateBurnoutScore m).2 = burnoutLevel (calculateBurnoutScore m).1) ∧
    burnoutLevel 29 = BurnoutLevel.low ∧ burnoutLevel 30 = BurnoutLevel.moderate ∧
    burnoutLevel 49 = BurnoutLevel.moderate ∧ burnoutLevel 50 = BurnoutLevel.high ∧
    burnoutLevel 69 = BurnoutLevel.high ∧ burnoutLevel 70 = BurnoutLevel.critical := by
  refine ⟨fun s => ?_, fun m => ?_, by decide, by decide, by decide, by decide, by decide,
    by decide⟩
  · unfold burnoutLevel
    refine ⟨?_, ?_, ?_, ?_⟩ <;> split_ifs <;> simp_all <;> omega
  · show burnoutLevel (burnoutRawScore m) = burnoutLevel (min (burnoutRawScore m) 100)
    unfold burnoutLevel
    split_ifs <;> first | rfl | omega

/-- C8: the suggestion list of the blocked-ticket advisor is never empty,
and when none of the five contextual rules matches (over 48 hours blocked,
explicitly empty assignee list, status containing "waiting", status
containing "review", over 3 days since update) it is exactly the single
generic update-status fallback. -/
theorem suggestions_never_empty (now : ℤ) (bt : BlockedTask) :
    taskSuggestions now bt ≠ [] ∧
      (¬ bt.hoursBlocked > 48 → ¬ bt.task.assignees = some [] →
        ¬ strContains bt.task.statusTextLower "waiting" = true →
          ¬ strContains bt.task.statusTextLower "review" = true →
            ¬ daysSinceUpdate now bt.task > 3 →
              taskSuggestions now bt = [SuggestionType.statusUpdate]) := by
  unfold taskSuggestions
  constructor
  · split_ifs <;> simp_all
  · intro h1 h2 h3 h4 h5
    simp [h1, h2, h3, h4, h5]

/-- A blocked task matching none of the five rules, for the C8 witness:
status "blocked", one assignee, freshly updated, 10 hours blocked. -/
def quietTask : Task :=
  { id := "task-1", name := "quiet", status := some (StatusVal.obj (some "Blocked") none)
    assignees := some [{ username := some "alice" }], comments := none
    date_created := some 0, date_updated := some 0, date_closed := none, points := none }

/-- The C8 fallback at a concrete task matching none of the five rules. -/
theorem suggestions_never_empty_witness :
    taskSuggestions 0
      { task := quietTask, blockedSince := 0, hoursBlocked := 10, needsFollowUp := false } =
      [SuggestionType.statusUpdate] :=
  (suggestions_never_empty 0
      { task := quietTask, blockedSince := 0, hoursBlocked := 10, needsFollowUp := false }).2
    (by decide) (by decide) (by decide) (by decide) (by decide)

/-- C6: missing data yields defined neutral results — empty PR input gives
the all-zero metrics record, a zero PR total makes both PR sub-scores of
the health composite default to the perfect 1, and on completely empty
task/PR/commit inputs the composed team health score is the
neutral-healthy 70, not 0. -/
theorem no_data_neutral_defaults :
    (calculatePRMetrics [] =
      { total := 0, openPRs := 0, merged := 0, closed := 0,
        averageTimeToMerge := 0, averageTimeToFirstReview := 0, byAuthor := [] }) ∧
    (∀ pm : PRMetrics, pm.total = 0 → prMergedScore pm = 1 ∧ prReviewScore pm = 1) ∧
    (∀ now : ℤ, (teamScores now [] [] []).health = 70) := by
  refine ⟨rfl, fun pm h => ?_, fun now => ?_⟩
  · unfold prMergedScore prReviewScore
    rw [h]
    norm_num
  · show calculateTeamHealthScore ((0 : ℚ) / 30 * 7) 0 (calculatePRMetrics []) = 70
    unfold calculateTeamHealthScore prMergedScore prReviewScore calculatePRMetrics
    norm_num [jsRound, clampScore]

/-- PRMetrics record with total 0, for the C6 witness. -/
def emptyPM : PRMetrics :=
  { total := 0, openPRs := 0, merged := 0, closed := 0, averageTimeToMerge := 0
    averageTimeToFirstReview := 0, byAuthor := [] }

/-- The C6 sub-score defaults instantiated at the zero-total PR metrics. -/
theorem no_data_neutral_defaults_witness :
    prMergedScore emptyPM = 1 ∧ prReviewScore emptyPM = 1 :=
  no_data_neutral_defaults.2.1 emptyPM rfl

/-- A task whose status is exactly "pending" and has no comments: the
spec's blocker predicate calls it blocked, the census does not. -/
def pendingTask : Task :=
  { id := "p1", name := "pending work", status := some (StatusVal.obj (some "pending") none)
    assignees := none, comments := none
    date_created := some 0, date_updated := some 0, date_closed := none, points := none }

/-- C2 counterexample: the blocker census (`calculateBlockerMetrics`) does
not count a status containing "pending" even though the claimed predicate
(matched by `getBlockedTasks`) classifies it blocked. -/
theorem blocker_census_pending_counterexample :
    (calculateBlockerMetrics [pendingTask]).totalBlocked = 0 ∧
      isBlockedTask pendingTask = true ∧ censusBlockedPred pendingTask = false := by
  decide

lemma commentBlockedText_iff (c : TaskComment) :
    commentBlockedText c = true ↔
      ∃ s, c.comment_text = some s ∧
        (strContains (jsToLower s) "blocked" = true ∨
          strContains (jsToLower s) "waiting" = true ∨
          strContains (jsToLower s) "pending" = true ∨
          strContains (jsToLower s) "stuck" = true) := by
  unfold commentBlockedText
  cases hc : c.comment_text with
  | none => simp [hc]; decide
  | some s => simp [hc, Bool.or_eq_true, or_assoc]

/-- C2 amended: `getBlockedTasks` classifies a task blocked exactly when
its status text contains blocked/waiting/pending or some comment text
contains blocked/waiting/pending/stuck (case-insensitive substring), while
the census `calculateBlockerMetrics` uses only status containing "blocked"
or "waiting" — no "pending" and no comment scan. -/
theorem blocked_predicates_characterization (t : Task) :
    (isBlockedTask t = true ↔
      (strContains t.statusTextLower "blocked" = true ∨
        strContains t.statusTextLower "waiting" = true ∨
        strContains t.statusTextLower "pending" = true) ∨
      ∃ c ∈ t.comments.getD [], ∃ s, c.comment_text = some s ∧
        (strContains (jsToLower s) "blocked" = true ∨
          strContains (jsToLower s) "waiting" = true ∨
          strContains (jsToLower s) "pending" = true ∨
          strContains (jsToLower s) "stuck" = true)) ∧
    (censusBlockedPred t = true ↔
      strContains t.statusTextLower "blocked" = true ∨
        strContains t.statusTextLower "waiting" = true) := by
  constructor
  · unfold isBlockedTask isBlockedStatus hasBlockedComments
    cases hc : t.comments with
    | none => simp [hc, Bool.or_eq_true, or_assoc]
    | some cs =>
      simp only [hc, Option.getD_some, Bool.or_eq_true, List.any_eq_true,
        commentBlockedText_iff, or_assoc]
  · unfold censusBlockedPred
    simp [Bool.or_eq_true]

/-- A task with a completed status last updated at epoch 0, far outside any
recent window. -/
def oldDoneTask : Task :=
  { id := "d1", name := "old done", status := some (StatusVal.obj (some "done") none)
    assignees := none, comments := none
    date_created := some 0, date_updated := some 0, date_closed := none, points := some 5 }

/-- C1: `calculateVelocity` counts a completed task whose last update is
100 days before `now` in a 7-day window, because the `isWithinTimeframe`
conjunct is commented out of the filter — the window only scales the
averages. The averages still satisfy totalPoints/days and its
7-fold. -/
theorem velocity_ignores_window :
    calculateVelocity 8640000000 [oldDoneTask] 7 =
      { totalTasks := 1, totalPoints := 5, averagePerDay := 5 / 7, averagePerWeek := 5 } ∧
      isWithinTimeframe 8640000000 7 oldDoneTask = false := by
  constructor
  · have hcomp : isCompletedStatus oldDoneTask = true := by decide
    have hfil : List.filter (fun task => isCompletedStatus task) [oldDoneTask] = [oldDoneTask] := by
      simp [hcomp]
    have hpts : taskPoints oldDoneTask = 5 := by decide
    simp only [calculateVelocity, hfil, List.foldl_cons, List.foldl_nil, List.length_cons,
      List.length_nil, hpts, VelocityMetrics.mk.injEq]
    norm_num
  · decide

lemma length_filter_map_pr (P : PullRequest → Bool) (l : List PullRequest) :
    ((l.map prWithTimes).filter fun p => P p.pr).length = (l.filter P).length := by
  induction l with
  | nil => rfl
  | cons hd tl ih =>
    simp only [List.map_cons, List.filter_cons]
    have hpr : (prWithTimes hd).pr = hd := rfl
    rw [hpr]
    cases hP : P hd <;> simp [ih]

/-- Well-formedness of one PR record in the sense of claim C10: explicit
`merged_at` (null or timestamp), state open or closed, and non-null
`merged_at` only on closed PRs. -/
def WfPR (pr : PullRequest) : Prop :=
  pr.merged_at ≠ none ∧ (pr.state = "open" ∨ pr.state = "closed") ∧
    (pr.merged_at ≠ some none → pr.state = "closed")

lemma pr_partition (l : List PullRequest) (h : ∀ pr ∈ l, WfPR pr) :
    l.length = (l.filter fun pr => pr.state = "open").length +
      (l.filter fun pr => mergedAtNotNull pr).length +
      (l.filter fun pr => pr.state = "closed" ∧ pr.merged_at = some none).length := by
  induction l with
  | nil => rfl
  | cons hd tl ih =>
    obtain ⟨h1, h2, h3⟩ := h hd (by simp)
    have htl := ih fun pr hpr => h pr (by simp [hpr])
    simp only [List.filter_cons, List.length_cons]
    rcases h2 with hop | hcl
    · have hne : hd.state ≠ "closed" := by rw [hop]; decide
      have hm' : hd.merged_at = some none := by
        by_contra hx
        exact hne (h3 hx)
      have hnm : mergedAtNotNull hd = false := by simp [mergedAtNotNull, hm']
      rw [if_pos (by simp [hop]), if_neg (by simp [hnm]), if_neg (by simp [hne])]
      simp only [List.length_cons]
      omega
    · have hne : hd.state ≠ "open" := by rw [hcl]; decide
      by_cases hmm : hd.merged_at = some none
      · have hnm : mergedAtNotNull hd = false := by simp [mergedAtNotNull, hmm]
        rw [if_neg (by simp [hne]), if_neg (by simp [hnm]), if_pos (by simp [hcl, hmm])]
        simp only [List.length_cons]
        omega
      · have hnm : mergedAtNotNull hd = true := by simp [mergedAtNotNull, hmm]
        rw [if_neg (by simp [hne]), if_pos hnm, if_neg (by simp [hmm])]
        simp only [List.length_cons]
        omega

/-- An open PR whose `merged_at` field is absent (undefined), state open. -/
def openAbsentPR : PullRequest :=
  { created_at := 0, merged_at := none, closed_at := none, state := "open"
    user_login := none, reviews := none }

/-- C10: `calculatePRMetrics` classifies a PR as merged exactly when
`merged_at !== null`; with explicit `merged_at` fields, binary state and
merged-implies-closed the counts satisfy total = open + merged + closed;
and a PR with an absent (undefined) `merged_at` is counted as merged even
with state "open". -/
theorem pr_merged_classification :
    (∀ pr : PullRequest, mergedAtNotNull pr = true ↔ pr.merged_at ≠ some none) ∧
    (∀ prs : List PullRequest,
      (calculatePRMetrics prs).merged = (prs.filter fun pr => mergedAtNotNull pr).length) ∧
    (∀ prs : List PullRequest, (∀ pr ∈ prs, WfPR pr) →
      (calculatePRMetrics prs).total =
        (calculatePRMetrics prs).openPRs + (calculatePRMetrics prs).merged +
          (calculatePRMetrics prs).closed) ∧
    ((calculatePRMetrics [openAbsentPR]).merged = 1 ∧ openAbsentPR.state = "open" ∧
      openAbsentPR.merged_at = none) := by
  have hmerged : ∀ prs : List PullRequest,
      (calculatePRMetrics prs).merged = (prs.filter fun pr => mergedAtNotNull pr).length := by
    intro prs
    cases prs with
    | nil => rfl
    | cons hd tl =>
      show ((List.map prWithTimes (hd :: tl)).filter fun p => mergedAtNotNull p.pr).length = _
      exact length_filter_map_pr (fun pr => mergedAtNotNull pr) (hd :: tl)
  refine ⟨fun pr => by simp [mergedAtNotNull], hmerged, fun prs h => ?_, ?_, rfl, rfl⟩
  · cases prs with
    | nil => rfl
    | cons hd tl =>
      have hopen : (calculatePRMetrics (hd :: tl)).openPRs =
          ((hd :: tl).filter fun pr => pr.state = "open").length := by
        show ((List.map prWithTimes (hd :: tl)).filter fun p => p.pr.state = "open").length = _
        exact length_filter_map_pr (fun pr => pr.state = "open") (hd :: tl)
      have hclosed : (calculatePRMetrics (hd :: tl)).closed =
          ((hd :: tl).filter fun pr =>
            pr.state = "closed" ∧ pr.merged_at = some none).length := by
        show ((List.map prWithTimes (hd :: tl)).filter fun p =>
          p.pr.state = "closed" ∧ p.pr.merged_at = some none).length = _
        exact length_filter_map_pr
          (fun pr => pr.state = "closed" ∧ pr.merged_at = some none) (hd :: tl)
      have htotal : (calculatePRMetrics (hd :: tl)).total = (hd :: tl).length := by
        show (List.map prWithTimes (hd :: tl)).length = _
        exact List.length_map _ _
      rw [htotal, hopen, hclosed, hmerged]
      exact pr_partition (hd :: tl) h
  · rw [hmerged]
    rfl

/-- A well-formed closed-and-merged PR for the C10 witness. -/
def closedMergedPR : PullRequest :=
  { created_at := 0, merged_at := some (some 5), closed_at := some 5, state := "closed"
    user_login := some "alice", reviews := none }

/-- An open PR with an explicit null `merged_at`, for the C10 witness. -/
def openNullPR : PullRequest :=
  { created_at := 0, merged_at := some none, closed_at := none, state := "open"
    user_login := some "bob", reviews := none }

/-- The C10 count partition instantiated at a concrete well-formed list. -/
theorem pr_merged_classification_witness :
    (calculatePRMetrics [closedMergedPR, openNullPR]).total =
      (calculatePRMetrics [closedMergedPR, openNullPR]).openPRs +
        (calculatePRMetrics [closedMergedPR, openNullPR]).merged +
          (calculatePRMetrics [closedMergedPR, openNullPR]).closed :=
  pr_merged_classification.2.2.1 [closedMergedPR, openNullPR] (by
    intro pr hpr
    fin_cases hpr
    · exact ⟨by decide, by decide, fun hx => by decide⟩
    · exact ⟨by decide, by decide, fun hx => absurd (by decide) hx⟩)

lemma foldl_add_getD_map (g : PRTimes → Option ℚ) (l : List PRTimes) (init : ℚ) :
    l.foldl (fun sum p => sum + (match g p with | some q => q | none => 0)) init =
      init + (l.map fun p => (match g p with | some q => q | none => 0)).sum := by
  induction l generalizing init with
  | nil => simp
  | cons hd tl ih => simp [ih, add_assoc]

lemma ttfr_values_eq (l : List PullRequest) :
    ((l.map prWithTimes).filter fun p => p.timeToFirstReview ≠ none).map
        (fun p => (match p.timeToFirstReview with | some q => q | none => 0)) =
      l.filterMap firstReviewTime := by
  induction l with
  | nil => rfl
  | cons hd tl ih =>
    simp only [List.map_cons, List.filter_cons, List.filterMap_cons]
    have hpr : (prWithTimes hd).timeToFirstReview = firstReviewTime hd := rfl
    cases hF : firstReviewTime hd with
    | none => rw [if_neg (by simp [hpr, hF])]; exact ih
    | some q => rw [if_pos (by simp [hpr, hF])]; simpa [hpr, hF] using ih

lemma ttfr_count_eq (l : List PullRequest) :
    ((l.map prWithTimes).filter fun p => p.timeToFirstReview ≠ none).length =
      (l.filterMap firstReviewTime).length := by
  rw [← ttfr_values_eq l, List.length_map]

lemma ttm_values_eq (l : List PullRequest) (h : ∀ pr ∈ l, pr.merged_at ≠ none) :
    ((l.map prWithTimes).filter fun p => mergedAtNotNull p.pr).map
        (fun p => (match p.timeToMerge with | some q => q | none => 0)) =
      l.filterMap mergedTimeDays := by
  induction l with
  | nil => rfl
  | cons hd tl ih =>
    have hhd := h hd (by simp)
    have htl := ih fun pr hpr => h pr (by simp [hpr])
    simp only [List.map_cons, List.filter_cons, List.filterMap_cons]
    have hpr : (prWithTimes hd).pr = hd := rfl
    have hpt : (prWithTimes hd).timeToMerge = mergedTimeDays hd := rfl
    rcases hm : hd.merged_at with _ | m
    · exact absurd hm hhd
    rcases m with _ | ts
    · have : mergedAtNotNull hd = false := by simp [mergedAtNotNull, hm]
      rw [if_neg (by simp [hpr, this])]
      have : mergedTimeDays hd = none := by
        simp [mergedTimeDays, mergedAtTimestamp, hm]
      rw [this]
      exact htl
    · have hnm : mergedAtNotNull hd = true := by simp [mergedAtNotNull, hm]
      have hmt : mergedTimeDays hd =
          some (((ts - hd.created_at : ℤ) : ℚ) / (1000 * 60 * 60 * 24)) := by
        simp [mergedTimeDays, mergedAtTimestamp, hm]
      rw [if_pos (by simp [hpr, hnm]), hmt]
      simpa [hpt, hmt] using htl

lemma ttm_count_eq (l : List PullRequest) (h : ∀ pr ∈ l, pr.merged_at ≠ none) :
    ((l.map prWithTimes).filter fun p => mergedAtNotNull p.pr).length =
      (l.filterMap mergedTimeDays).length := by
  rw [← ttm_values_eq l h, List.length_map]

/-- The spec-side mean first-review latency (amended form of claim C3): the
FIRST element of the reviews array provides the latency; the mean ranges
over PRs where that value exists, and is 0 when there are none. -/
def amendedAvgTTFR (prs : List PullRequest) : ℚ :=
  let ts := prs.filterMap firstReviewTime
  if ts.length > 0 then ts.sum / (ts.length : ℚ) else 0

/-- The spec-side mean merge latency: mean of (mergedAt − createdAt) in
days over PRs carrying a merge timestamp, 0 when there are none. -/
def amendedAvgTTM (prs : List PullRequest) : ℚ :=
  let ts := prs.filterMap mergedTimeDays
  if ts.length > 0 then ts.sum / (ts.length : ℚ) else 0

/-- The earliest review submission of a PR by `submittedAt`, as the spec
describes, regardless of the order of the reviews array. -/
def specEarliestReviewHours (pr : PullRequest) : Option ℚ :=
  match (pr.reviews.getD []).filterMap (fun r => r.submitted_at) with
  | [] => none
  | t :: ts => some (((ts.foldl min t - pr.created_at : ℤ) : ℚ) / (1000 * 60 * 60))

/-- The claim's average first-review latency: mean of the earliest-review
latencies over PRs having at least one review, 0 if none. -/
def specAvgTimeToFirstReview (prs : List PullRequest) : ℚ :=
  let ts := prs.filterMap specEarliestReviewHours
  if ts.length > 0 then ts.sum / (ts.length : ℚ) else 0

/-- A PR created at epoch whose reviews array lists the 100-hour review
before the 10-hour review. -/
def reviewOrderPR : PullRequest :=
  { created_at := 0, merged_at := some none, closed_at := none, state := "open"
    user_login := some "alice"
    reviews := some [{ submitted_at := some 360000000 }, { submitted_at := some 36000000 }] }

/-- C3 counterexample: with reviews out of chronological order the code
averages the FIRST array element's latency (100 hours), not the earliest
review's latency (10 hours), so the claimed equality fails. -/
theorem pr_first_review_order_counterexample :
    (calculatePRMetrics [reviewOrderPR]).averageTimeToFirstReview ≠
        specAvgTimeToFirstReview [reviewOrderPR] ∧
      (calculatePRMetrics [reviewOrderPR]).averageTimeToFirstReview = 100 ∧
      specAvgTimeToFirstReview [reviewOrderPR] = 10 := by
  have hf : firstReviewTime reviewOrderPR = some 100 := by
    show some ((((360000000 : ℤ) - 0 : ℤ) : ℚ) / (1000 * 60 * 60)) = some 100
    norm_num
  have h1 : (calculatePRMetrics [reviewOrderPR]).averageTimeToFirstReview = 100 := by
    show avgTimeToFirstReview
      (([reviewOrderPR].map prWithTimes).filter fun p => p.timeToFirstReview ≠ none) = 100
    have hpt : (prWithTimes reviewOrderPR).timeToFirstReview = firstReviewTime reviewOrderPR :=
      rfl
    simp [avgTimeToFirstReview, hpt, hf]
  have h2 : specAvgTimeToFirstReview [reviewOrderPR] = 10 := by
    have hsp : specEarliestReviewHours reviewOrderPR = some 10 := by
      show some ((((36000000 : ℤ) - 0 : ℤ) : ℚ) / (1000 * 60 * 60)) = some 10
      norm_num
    simp [specAvgTimeToFirstReview, hsp]
  refine ⟨?_, h1, h2⟩
  rw [h1, h2]
  norm_num

/-- C3 amended: `averageTimeToFirstReview` is the mean over PRs whose FIRST
reviews-array element carries a submission time of that first element's
latency in hours (not the earliest review by `submittedAt`), 0 when no PR
has one; and for lists whose PRs all carry an explicit `merged_at`,
`averageTimeToMerge` is the mean merge latency in days over merged PRs, 0
if none. -/
theorem pr_averages_characterization (prs : List PullRequest) :
    (calculatePRMetrics prs).averageTimeToFirstReview = amendedAvgTTFR prs ∧
      ((∀ pr ∈ prs, pr.merged_at ≠ none) →
        (calculatePRMetrics prs).averageTimeToMerge = amendedAvgTTM prs) := by
  constructor
  · cases prs with
    | nil => rfl
    | cons hd tl =>
      show avgTimeToFirstReview
        (((hd :: tl).map prWithTimes).filter fun p => p.timeToFirstReview ≠ none) =
          amendedAvgTTFR (hd :: tl)
      unfold avgTimeToFirstReview amendedAvgTTFR
      rw [foldl_add_getD_map (fun p => p.timeToFirstReview), zero_add, ttfr_values_eq,
        ttfr_count_eq]
  · intro h
    cases prs with
    | nil => rfl
    | cons hd tl =>
      show avgTimeToMerge
        (((hd :: tl).map prWithTimes).filter fun p => mergedAtNotNull p.pr) =
          amendedAvgTTM (hd :: tl)
      unfold avgTimeToMerge amendedAvgTTM
      rw [foldl_add_getD_map (fun p => p.timeToMerge), zero_add, ttm_values_eq _ h,
        ttm_count_eq _ h]

/-- The C3 amended merge-latency average instantiated at a concrete list
with explicit `merged_at` fields. -/
theorem pr_averages_characterization_witness :
    (calculatePRMetrics [closedMergedPR, reviewOrderPR]).averageTimeToMerge =
      amendedAvgTTM [closedMergedPR, reviewOrderPR] :=
  (pr_averages_characterization [closedMergedPR, reviewOrderPR]).2
    (by intro pr hpr; fin_cases hpr <;> decide)

/-- A ticket with tier critical and 10 hours blocked (the claim's concrete
ordering example; the tier is taken as given). -/
def crit10Ticket : BlockedTicket :=
  { bt := { task := pendingTask, blockedSince := 0, hoursBlocked := 10, needsFollowUp := false }
    assigneeName := "Unassigned", suggestions := [SuggestionType.statusUpdate]
    daysSince := 0, priorityLevel := Priority.critical }

/-- A ticket with tier high and 30 hours blocked. -/
def high30Ticket : BlockedTicket :=
  { bt := { task := quietTask, blockedSince := 0, hoursBlocked := 30, needsFollowUp := false }
    assigneeName := "alice", suggestions := [SuggestionType.statusUpdate]
    daysSince := 0, priorityLevel := Priority.high }

/-- C7: the blocked-ticket list is sorted by tier descending then
hoursBlocked descending; each emitted ticket's tier is derived from its
hoursBlocked by the critical/high/medium cut points; and the comparator
puts a (critical, 10h) ticket before a (high, 30h) ticket. -/
theorem blocked_list_ordering (now : ℤ) (tasks : List Task) :
    List.Sorted ticketRel (blockedTicketsWithSuggestions now tasks) ∧
    (∀ t ∈ blockedTicketsWithSuggestions now tasks,
      t.priorityLevel = priorityLevelOf t.bt.hoursBlocked) ∧
    (∀ h : ℤ, (priorityLevelOf h = Priority.critical ↔ h > 48) ∧
      (priorityLevelOf h = Priority.high ↔ h > 24 ∧ ¬ h > 48) ∧
      (priorityLevelOf h = Priority.medium ↔ ¬ h > 24) ∧
      priorityLevelOf h ≠ Priority.low) ∧
    List.insertionSort ticketRel [high30Ticket, crit10Ticket] = [crit10Ticket, high30Ticket] := by
  refine ⟨List.sorted_insertionSort ticketRel _, ?_, ?_, by decide⟩
  · intro t ht
    rw [blockedTicketsWithSuggestions, List.mem_insertionSort, List.mem_map] at ht
    obtain ⟨bt, _, rfl⟩ := ht
    rfl
  · intro h
    refine ⟨?_, ?_, ?_, ?_⟩ <;> unfold priorityLevelOf <;> split_ifs <;>
      first
        | (simp_all; omega)
        | simp_all
        | omega

/-- The blocked-since-epoch record of `pendingTask` at time 0, for the C7
witness. -/
def pendingBT : BlockedTask :=
  { task := pendingTask, blockedSince := 0, hoursBlocked := 0, needsFollowUp := false }

/-- The C7 tier derivation read back from a concrete emitted ticket. -/
theorem blocked_list_ordering_witness :
    (mkTicket 0 pendingBT).priorityLevel =
      priorityLevelOf (mkTicket 0 pendingBT).bt.hoursBlocked :=
  (blocked_list_ordering 0 [pendingTask]).2.1 (mkTicket 0 pendingBT) (by decide)

lemma stateBefore_shift (cfg : DetectorCfg) (s0 : List Task) (p : Poll) (ps : List Poll)
    (j : ℕ) :
    stateBefore cfg ((detectorStep cfg s0 p).1) ps j = stateBefore cfg s0 (p :: ps) (j + 1) := by
  cases j <;> rfl

lemma runDetector_get? (cfg : DetectorCfg) :
    ∀ (polls : List Poll) (s0 : List Task) (i : ℕ),
      (runDetector cfg s0 polls).get? i =
        match polls.get? i with
        | some p =>
          some ((detectStagnantTasks cfg p.now p.tasks).filter
            fun t => !((stateBefore cfg s0 polls i).contains t.id))
        | none => none
  | [], s0, i => by simp [runDetector]
  | p :: ps, s0, 0 => rfl
  | p :: ps, s0, i + 1 => by
    have ih := runDetector_get? cfg ps ((detectorStep cfg s0 p).1) i
    show (runDetector cfg ((detectorStep cfg s0 p).1) ps).get? i = _
    rw [ih]
    have hrw : (p :: ps).get? (i + 1) = ps.get? i := rfl
    rw [hrw]
    simp only [stateBefore_shift]

/-- C4: on every poll the detector alerts exactly the task ids in the
newly computed stagnant set that were absent from the previous poll's set;
consequently over a stretch of consecutive stagnant polls an id entering
the set fires once at entry and never again while it stays, and it fires
anew whenever it re-enters after leaving. -/
theorem stagnant_alert_dedup (cfg : DetectorCfg) (s0 : List Task) (polls : List Poll)
    (tid : String) :
    (∀ i batch, (runDetector cfg s0 polls).get? i = some batch →
      (tid ∈ batch.map Task.id ↔
        (∃ p, polls.get? i = some p ∧ tid ∈ stagnantIds cfg p) ∧
          tid ∉ stateBefore cfg s0 polls i)) ∧
    (∀ N M, N ≤ M →
      (∀ k, N ≤ k → k ≤ M → ∃ p, polls.get? k = some p ∧ tid ∈ stagnantIds cfg p) →
      tid ∉ stateBefore cfg s0 polls N →
      (∀ batch, (runDetector cfg s0 polls).get? N = some batch → tid ∈ batch.map Task.id) ∧
      (∀ k batch, N < k → k ≤ M → (runDetector cfg s0 polls).get? k = some batch →
        tid ∉ batch.map Task.id)) := by
  have main : ∀ i batch, (runDetector cfg s0 polls).get? i = some batch →
      (tid ∈ batch.map Task.id ↔
        (∃ p, polls.get? i = some p ∧ tid ∈ stagnantIds cfg p) ∧
          tid ∉ stateBefore cfg s0 polls i) := by
    intro i batch hb
    rw [runDetector_get? cfg polls s0 i] at hb
    cases hq : polls.get? i with
    | none => rw [hq] at hb; exact absurd hb (by simp)
    | some p =>
      rw [hq] at hb
      have hbatch : batch = (detectStagnantTasks cfg p.now p.tasks).filter
          (fun t => !((stateBefore cfg s0 polls i).contains t.id)) := by
        injection hb with h
        exact h.symm
      subst hbatch
      constructor
      · rintro hmem
        rw [List.mem_map] at hmem
        obtain ⟨t, htf, rfl⟩ := hmem
        rw [List.mem_filter] at htf
        obtain ⟨htc, hnc⟩ := htf
        refine ⟨⟨p, rfl, ?_⟩, ?_⟩
        · exact List.mem_map_of_mem Task.id htc
        · intro hin
          simp only [Bool.not_eq_true', ← Bool.not_eq_true] at hnc
          exact hnc (by simpa using hin)
      · rintro ⟨⟨p', hp', hstag⟩, hpre⟩
        have hpp : p' = p := by
          injection hp' with h
          exact h.symm
        subst hpp
        simp only [stagnantIds, List.mem_map] at hstag
        obtain ⟨t, htc, rfl⟩ := hstag
        rw [List.mem_map]
        refine ⟨t, ?_, rfl⟩
        rw [List.mem_filter]
        refine ⟨htc, ?_⟩
        simpa using hpre
  refine ⟨main, fun N M hNM hstag hpre => ⟨?_, ?_⟩⟩
  · intro batch hb
    exact (main N batch hb).mpr ⟨hstag N le_rfl hNM, hpre⟩
  · intro k batch hNk hkM hb hmem
    obtain ⟨⟨p, hp, hpmem⟩, hnot⟩ := (main k batch hb).mp hmem
    obtain ⟨j, rfl⟩ : ∃ j, k = j + 1 := ⟨k - 1, by omega⟩
    obtain ⟨q, hq, hqmem⟩ := hstag j (by omega) (by omega)
    apply hnot
    show tid ∈ (match polls.get? j with
      | some p => stagnantIds cfg p
      | none => ([] : List String))
    rw [hq]
    exact hqmem

/-- A 24-hour stagnation threshold. -/
def stagCfg : DetectorCfg := { thresholdValue := 24, unit := ThresholdUnit.hours }

/-- An in-progress task last updated at epoch 0. -/
def progTask : Task :=
  { id := "s1", name := "stuck work", status := some (StatusVal.obj (some "in progress") none)
    assignees := none, comments := none
    date_created := some 0, date_updated := some 0, date_closed := none, points := none }

/-- Poll 25 hours after the task's last update: the task is stagnant. -/
def poll0 : Poll := { now := 90000000, tasks := [progTask] }

/-- Poll one hour later: the task is still stagnant. -/
def poll1 : Poll := { now := 93600000, tasks := [progTask] }

/-- The C4 dedup at a concrete two-poll run: the task id is alerted at the
first poll where it goes stagnant and not at the next poll where it stays
stagnant. -/
theorem stagnant_alert_dedup_witness :
    "s1" ∈ ([progTask].map Task.id) ∧ "s1" ∉ (([] : List Task).map Task.id) := by
  have hstretch := (stagnant_alert_dedup stagCfg [] [poll0, poll1] "s1").2 0 1 (by decide)
    (by
      intro k hk0 hk1
      interval_cases k
      · exact ⟨poll0, rfl, by decide⟩
      · exact ⟨poll1, rfl, by decide⟩)
    (by decide)
  exact ⟨hstretch.1 [progTask] rfl, hstretch.2 1 [] (by decide) (by decide) rfl⟩

end PulseTracker
